import Mathlib

/-!
Shallow embedding of the `fe3o4` typed resource registry
(identifier type `Id`, registry table `RegTab`, reference-or-owned
pointer `Rp` with its serde protocol), translated from the Rust
sources in `src/id.rs`, `src/err.rs`, `src/tab.rs`, `src/lib.rs`.

Strings are modelled as `List Char` (Lean `Char` = Rust `char`, one
unicode scalar value each); UTF-8 byte length is recovered with
`Char.utf8Size`, so the 12-byte `ArrayString<12>` capacity check is
byte-faithful.  Lexicographic comparison of scalar values coincides
with Rust's byte-wise `str` comparison because UTF-8 is
order-preserving.
-/

namespace Fe3o4

/-- Rust `str` contents, one `Char` per unicode scalar value. -/
abbrev RStr := List Char

/-- UTF-8 byte length of a string, as Rust `str::len` counts it. -/
def utf8Len (s : RStr) : Nat :=
  s.foldr (fun c n => c.utf8Size + n) 0

/-- `src/err.rs`: `InvalidIdError` — `Length(CapacityError)` or `InvalidParts`. -/
inductive InvalidIdError where
  | length
  | invalidParts
deriving DecidableEq, Repr

/-- `src/id.rs`: the data of `IdInner<T>` — `module` and `name`, each an
`ArrayString<12>` (stored contents; the ≤ 12-byte bound is enforced at the
`ArrayString::from` construction sites, modelled by `arrayStringFrom12`).
The phantom `T` never affects the runtime data and is omitted. -/
structure IdT where
  module : RStr
  name : RStr
deriving DecidableEq, Repr

/-- `ArrayString::<12>::from(s).map_err(CapacityError::simplify)?` as used in
`FromStr for Id`: succeeds iff the byte length is within capacity. -/
def arrayStringFrom12 (s : RStr) : Except InvalidIdError RStr :=
  if utf8Len s ≤ 12 then .ok s else .error .length

/-- Rust `s.split('/')` on the character list: always at least one part,
one extra part per separator occurrence. -/
def splitOnChar (sep : Char) : RStr → List RStr
  | [] => [[]]
  | c :: cs =>
    let r := splitOnChar sep cs
    if c = sep then [] :: r
    else
      match r with
      | [] => [[c]]
      | h :: t => (c :: h) :: t

/-- `src/id.rs` `FromStr for Id`: split on `/`, require exactly two parts
(else `InvalidParts`), then build each `ArrayString<12>` (module first,
`Length` on overflow). -/
def idFromStr (s : RStr) : Except InvalidIdError IdT :=
  match splitOnChar '/' s with
  | [m, n] =>
    match arrayStringFrom12 m with
    | .error e => .error e
    | .ok module =>
      match arrayStringFrom12 n with
      | .error e => .error e
      | .ok name => .ok ⟨module, name⟩
  | _ => .error .invalidParts

/-- `src/id.rs` `Display for Id`: `write!(f, "{}/{}", self.module, self.name)`. -/
def idToString (i : IdT) : RStr :=
  i.module ++ '/' :: i.name

/-- Rust `Ord` on scalar values; for `str` this agrees with byte order. -/
def charCmp (a b : Char) : Ordering :=
  compare a.toNat b.toNat

/-- Rust lexicographic `str::cmp`. -/
def strCmp : RStr → RStr → Ordering
  | [], [] => .eq
  | [], _ :: _ => .lt
  | _ :: _, [] => .gt
  | a :: as, b :: bs =>
    match charCmp a b with
    | .eq => strCmp as bs
    | o => o

/-- `src/id.rs` `Ord for IdInner`: module first, then name. -/
def idCmp (a b : IdT) : Ordering :=
  match strCmp a.module b.module with
  | .eq => strCmp a.name b.name
  | x => x

/-- The documented `Id` charset `[a-zA-Z0-9._-]` (id.rs doc comment). -/
def isIdChar (c : Char) : Bool :=
  ('a' ≤ c && c ≤ 'z') || ('A' ≤ c && c ≤ 'Z') || ('0' ≤ c && c ≤ '9') ||
    c = '.' || c = '_' || c = '-'

/-- A valid `Id` part per the documented invariant: non-empty, at most
12 bytes, charset-restricted. -/
def validPart (s : RStr) : Bool :=
  !s.isEmpty && utf8Len s ≤ 12 && s.all isIdChar

/-- A valid `Id`: both parts valid. -/
def validId (i : IdT) : Bool :=
  validPart i.module && validPart i.name

/-- Number of occurrences of a separator character in a string. -/
def countChar (sep : Char) : RStr → Nat
  | [] => 0
  | c :: cs => (if c = sep then 1 else 0) + countChar sep cs

/-! ### Registry table, reference-or-owned pointer, serde protocol

`src/tab.rs`: `RegTab<T>` is a newtype over `DashMap<&'static str, T>`;
its keys are the string forms of identifiers.  Since `Display`/`FromStr`
are mutually inverse on the identifier domain (see `c2_id_roundtrip`),
the model keys the table by `IdT` directly, as the spec's data model
does ("a concurrent mapping from Identifier to resource"). -/

/-- The contents of a `RegTab<T>` (`DashMap` modelled as an association
list; the claims under verification are not about hashing). -/
def RegTabM (T : Type) := List (IdT × T)

/-- `DashMap::get` by key: first matching entry, `none` when absent. -/
def regGet {T : Type} : RegTabM T → IdT → Option T
  | [], _ => none
  | (k, v) :: rest, i => if k = i then some v else regGet rest i

/-- `src/lib.rs`: `Rp<T>` — `Registered` holds a `Ref<'static, &'static str, T>`
(a live handle into the table, modelled as the handle's key together with the
entry value it resolves to) and `Orphan` holds a `Box<T>`. -/
inductive RpM (T : Type) where
  | registered (key : IdT) (v : T)
  | orphan (v : T)
deriving DecidableEq, Repr

/-- `src/lib.rs`: `SerdeRp<T>` — the wire form, tag `r` with an `Id<T>`
payload or tag `o` with an inline `T`. -/
inductive SerdeRpM (T : Type) where
  | registered (id : IdT)
  | orphan (v : T)
deriving DecidableEq, Repr

/-- The relevant part of serde's `Unexpected` enum: the variant the code
passes (`StructVariant`) plus the string-carrying variant that an error
embedding the attempted identifier would have used. -/
inductive Unexpected where
  | structVariant
  | str (s : RStr)
deriving DecidableEq, Repr

/-- A serde decode error produced via `Error::invalid_value(unexp, &exp)`. -/
structure DeError where
  unexp : Unexpected
  expected : RStr
deriving DecidableEq, Repr

/-- `src/lib.rs` `Serialize for Rp`: `Registered` emits tag `r` with the
handle's key as identifier (`(*id.key()).into()`); `Orphan` emits tag `o`
with a clone of the boxed value. -/
def serRp {T : Type} : RpM T → SerdeRpM T
  | .registered k _ => .registered k
  | .orphan v => .orphan v

/-- `src/lib.rs` `Deserialize for Rp`: decode the wire form; on tag `r`
resolve the identifier in the type's registry table (`T::reg_tab()`),
producing `Registered` on a hit and
`Error::invalid_value(Unexpected::StructVariant, &"an orphan or registered id")`
on a miss; on tag `o` produce `Orphan` with no table interaction. -/
def deserRp {T : Type} (tab : RegTabM T) : SerdeRpM T → Except DeError (RpM T)
  | .registered id =>
    match regGet tab id with
    | some v => .ok (.registered id v)
    | none => .error ⟨.structVariant, "an orphan or registered id".data⟩
  | .orphan v => .ok (.orphan v)

/-- `src/lib.rs` `Clone for Rp`: `Registered` re-resolves its key with
`T::reg_tab().get(r.key()).unwrap()` (`none` models the `unwrap` panic on
a missed lookup); `Orphan` deep-copies the owned value with `v.clone()`. -/
def cloneRp {T : Type} (tab : RegTabM T) : RpM T → Option (RpM T)
  | .registered k _ =>
    match regGet tab k with
    | some v => some (.registered k v)
    | none => none
  | .orphan v => some (.orphan v)

/-- Modelled from the spec: the repository sources under `src/` carry no
build/freeze operation (`RegTab` in `src/tab.rs` only wraps the concurrent
map, and the declared module `prelude` is absent from the sources); the
spec's `build(self) -> FrozenTable<T>` one-way transition is modelled here
from its words.  The frozen view exposes lookup only. -/
structure FrozenTab (T : Type) where
  lookup : IdT → Option T

/-- Modelled from the spec: `build` consumes the builder and returns an
immutable view over the same entries. -/
def buildTab {T : Type} (tab : RegTabM T) : FrozenTab T :=
  ⟨fun k => regGet tab k⟩

theorem splitOnChar_ne_nil (sep : Char) (l : RStr) : splitOnChar sep l ≠ [] := by
  cases l with
  | nil => simp [splitOnChar]
  | cons c cs =>
    simp only [splitOnChar]
    split
    · simp
    · split <;> simp

theorem splitOnChar_not_mem (sep : Char) (l : RStr) (h : sep ∉ l) :
    splitOnChar sep l = [l] := by
  induction l with
  | nil => rfl
  | cons c cs ih =>
    simp only [List.mem_cons, not_or] at h
    obtain ⟨h1, h2⟩ := h
    simp only [splitOnChar, ih h2]
    rw [if_neg (fun hc => h1 hc.symm)]

theorem splitOnChar_append (sep : Char) (m n : RStr) (hm : sep ∉ m) :
    splitOnChar sep (m ++ sep :: n) = m :: splitOnChar sep n := by
  induction m with
  | nil => simp [splitOnChar]
  | cons c m' ih =>
    simp only [List.mem_cons, not_or] at hm
    obtain ⟨h1, h2⟩ := hm
    simp only [List.cons_append, splitOnChar, List.append_eq, ih h2]
    rw [if_neg (fun hc => h1 hc.symm)]

theorem length_splitOnChar (sep : Char) (s : RStr) :
    (splitOnChar sep s).length = countChar sep s + 1 := by
  induction s with
  | nil => rfl
  | cons c cs ih =>
    obtain ⟨h, t, hr⟩ : ∃ h t, splitOnChar sep cs = h :: t := by
      cases hsp : splitOnChar sep cs with
      | nil => exact absurd hsp (splitOnChar_ne_nil sep cs)
      | cons h t => exact ⟨h, t, rfl⟩
    rw [hr] at ih
    simp only [List.length_cons] at ih
    simp only [splitOnChar, countChar, hr]
    by_cases hc : c = sep <;> simp [hc, List.length_cons] <;> omega

theorem isIdChar_ne_slash (c : Char) (h : isIdChar c = true) : c ≠ '/' := by
  intro hc
  subst hc
  exact absurd h (by decide)

/-- C1: the identifier ordering does NOT always agree with the ordering of
the string forms: for the valid identifiers `a/x` and `a.b/x`, `IdInner::cmp`
yields `Less` (module `"a"` is a strict prefix of module `"a.b"`) while the
string forms `"a/x"` and `"a.b/x"` compare `Greater` (the separator `/`,
byte 0x2F, is larger than `.`, byte 0x2E).  This contradicts the spec's
ordering-consistency law and the guarantee documented on `Id` itself. -/
theorem c1_cmp_string_mismatch :
    validId ⟨"a".data, "x".data⟩ = true ∧
    validId ⟨"a.b".data, "x".data⟩ = true ∧
    idCmp ⟨"a".data, "x".data⟩ ⟨"a.b".data, "x".data⟩ = Ordering.lt ∧
    strCmp (idToString ⟨"a".data, "x".data⟩) (idToString ⟨"a.b".data, "x".data⟩) =
      Ordering.gt :=
  ⟨by decide, by decide, by decide, by decide⟩

/-- C2: for every valid identifier (both parts non-empty, at most 12 bytes,
charset `[a-zA-Z0-9._-]`), parsing the formatted string form succeeds and
returns the identifier itself. -/
theorem c2_id_roundtrip (i : IdT) (h : validId i = true) :
    idFromStr (idToString i) = .ok i := by
  obtain ⟨m, n⟩ := i
  simp only [validId, validPart, Bool.and_eq_true, decide_eq_true_eq,
    List.all_eq_true] at h
  obtain ⟨⟨⟨-, hm12⟩, hmc⟩, ⟨⟨-, hn12⟩, hnc⟩⟩ := h
  have hmns : '/' ∉ m := fun hmem => isIdChar_ne_slash _ (hmc _ hmem) rfl
  have hnns : '/' ∉ n := fun hmem => isIdChar_ne_slash _ (hnc _ hmem) rfl
  simp only [idToString]
  simp only [idFromStr, splitOnChar_append '/' m n hmns,
    splitOnChar_not_mem '/' n hnns]
  simp [arrayStringFrom12, hm12, hn12]

/-- Witness for C2 at the concrete identifier `core/torch`. -/
theorem c2_witness :
    validId ⟨"core".data, "torch".data⟩ = true ∧
    idFromStr (idToString ⟨"core".data, "torch".data⟩) =
      .ok ⟨"core".data, "torch".data⟩ :=
  ⟨by decide, c2_id_roundtrip _ (by decide)⟩

/-- C3: classification of `FromStr for Id`.  The split always has one part
more than the number of separator occurrences, so the separator count is 1
exactly when the split has two parts; with a count other than 1 parsing
fails with `InvalidParts`; with exactly one separator it fails with the
length error when either part exceeds 12 bytes and succeeds otherwise. -/
theorem c3_parse_classification (s : RStr) :
    ((splitOnChar '/' s).length = countChar '/' s + 1) ∧
    (countChar '/' s ≠ 1 → idFromStr s = .error .invalidParts) ∧
    (∀ m n, splitOnChar '/' s = [m, n] → 12 < utf8Len m ∨ 12 < utf8Len n →
      idFromStr s = .error .length) ∧
    (∀ m n, splitOnChar '/' s = [m, n] → utf8Len m ≤ 12 → utf8Len n ≤ 12 →
      idFromStr s = .ok ⟨m, n⟩) := by
  refine ⟨length_splitOnChar '/' s, ?_, ?_, ?_⟩
  · intro hcount
    have hlen : (splitOnChar '/' s).length ≠ 2 := by
      rw [length_splitOnChar]
      omega
    cases hsp : splitOnChar '/' s with
    | nil => exact absurd hsp (splitOnChar_ne_nil '/' s)
    | cons a t =>
      cases t with
      | nil => simp [idFromStr, hsp]
      | cons b t2 =>
        cases t2 with
        | nil =>
          rw [hsp] at hlen
          simp at hlen
        | cons c t3 => simp [idFromStr, hsp]
  · intro m n hsp hlong
    rcases hlong with hm | hn
    · simp [idFromStr, hsp, arrayStringFrom12, Nat.not_le.mpr hm]
    · by_cases hm : utf8Len m ≤ 12
      · simp [idFromStr, hsp, arrayStringFrom12, hm, Nat.not_le.mpr hn]
      · simp [idFromStr, hsp, arrayStringFrom12, hm]
  · intro m n hsp hm hn
    simp [idFromStr, hsp, arrayStringFrom12, hm, hn]

/-- Witness for C3: one input per branch — no separator, an oversized
first part, and a well-formed `core/torch`. -/
theorem c3_witness :
    idFromStr "coreonly".data = .error .invalidParts ∧
    idFromStr "aaaaaaaaaaaaa/b".data = .error .length ∧
    idFromStr "core/torch".data = .ok ⟨"core".data, "torch".data⟩ :=
  ⟨(c3_parse_classification _).2.1 (by decide),
   (c3_parse_classification _).2.2.1 "aaaaaaaaaaaaa".data "b".data rfl (by decide),
   (c3_parse_classification _).2.2.2 "core".data "torch".data rfl (by decide)
     (by decide)⟩

/-- C4 (amended): deserializing tag `r` resolves the identifier in the
registry table: on a hit the result is `Ok` with a `Registered` pointer to
that entry; on a miss it fails with the decode error built from
`Unexpected::StructVariant` and the expectation string
`"an orphan or registered id"` — the attempted identifier is not part of
the error. -/
theorem c4_deser_registered {T : Type} (tab : RegTabM T) (i : IdT) :
    (∀ v, regGet tab i = some v →
      deserRp tab (.registered i) = .ok (.registered i v)) ∧
    (regGet tab i = none →
      deserRp tab (.registered i) =
        .error ⟨.structVariant, "an orphan or registered id".data⟩) := by
  constructor
  · intro v hv
    simp [deserRp, hv]
  · intro hmiss
    simp [deserRp, hmiss]

/-- Witness for C4 with a one-entry table over `Nat`: hit on the present
identifier, miss against the empty table. -/
theorem c4_witness :
    deserRp [(⟨"m".data, "a".data⟩, (7 : Nat))]
        (.registered ⟨"m".data, "a".data⟩) =
      .ok (.registered ⟨"m".data, "a".data⟩ 7) ∧
    deserRp ([] : RegTabM Nat) (.registered ⟨"m".data, "a".data⟩) =
      .error ⟨.structVariant, "an orphan or registered id".data⟩ :=
  ⟨(c4_deser_registered _ _).1 7 rfl, (c4_deser_registered _ _).2 rfl⟩

/-- C4 counterexample to "the error carries the attempted identifier":
failing to resolve two DIFFERENT identifiers produces literally the same
error value, whose unexpected-part is the fixed `Unexpected::StructVariant`
marker; no identifier is embedded in it. -/
theorem c4_counterexample :
    deserRp ([] : RegTabM Nat) (.registered ⟨"m".data, "a".data⟩) =
      deserRp ([] : RegTabM Nat) (.registered ⟨"m".data, "b".data⟩) ∧
    deserRp ([] : RegTabM Nat) (.registered ⟨"m".data, "a".data⟩) =
      .error ⟨.structVariant, "an orphan or registered id".data⟩ :=
  ⟨rfl, rfl⟩

/-- C5: the (spec-modelled) consuming `build` takes the builder to a frozen
view that exposes lookup only; every key present in the builder at build
time is present in the frozen view with the same value. -/
theorem c5_build_preserves {T : Type} (tab : RegTabM T) (k : IdT) (v : T)
    (h : regGet tab k = some v) :
    (buildTab tab).lookup k = some v := h

/-- Witness for C5 at a concrete two-entry builder. -/
theorem c5_witness :
    (buildTab [(⟨"m".data, "a".data⟩, (1 : Nat)), (⟨"m".data, "b".data⟩, 2)]).lookup
        ⟨"m".data, "b".data⟩ = some 2 :=
  c5_build_preserves _ _ _ rfl

/-- C6: serializing an `Orphan` pointer and deserializing a tag-`o` value
succeed without any table interaction: the result holds exactly the decoded
inline value and is identical for any two table states. -/
theorem c6_orphan_independent {T : Type} (tab tab' : RegTabM T) (v : T) :
    serRp (RpM.orphan v) = SerdeRpM.orphan v ∧
    deserRp tab (.orphan v) = .ok (.orphan v) ∧
    deserRp tab (.orphan v) = deserRp tab' (.orphan v) :=
  ⟨rfl, rfl, rfl⟩

/-- C7: cloning a `Registered` pointer re-resolves the same key in the
table; under the invariant that the key is present and resolves to the
pointer's entry, the `unwrap` cannot fire and the clone is the same
`Registered` pointer (no deep copy of the resource); cloning an `Orphan`
copies the owned value. -/
theorem c7_clone {T : Type} (tab : RegTabM T) (k : IdT) (v : T)
    (h : regGet tab k = some v) :
    cloneRp tab (.registered k v) = some (.registered k v) ∧
    (∀ w : T, cloneRp tab (.orphan w) = some (.orphan w)) := by
  constructor
  · simp [cloneRp, h]
  · intro w
    rfl

/-- Witness for C7 with a one-entry table over `Nat`. -/
theorem c7_witness :
    cloneRp [(⟨"m".data, "a".data⟩, (3 : Nat))]
        (.registered ⟨"m".data, "a".data⟩ 3) =
      some (.registered ⟨"m".data, "a".data⟩ 3) ∧
    cloneRp [(⟨"m".data, "a".data⟩, (3 : Nat))] (RpM.orphan (5 : Nat)) =
      some (.orphan 5) :=
  ⟨(c7_clone [(⟨"m".data, "a".data⟩, (3 : Nat))] ⟨"m".data, "a".data⟩ 3 rfl).1,
   (c7_clone [(⟨"m".data, "a".data⟩, (3 : Nat))] ⟨"m".data, "a".data⟩ 3 rfl).2 5⟩

/-- C8 counterexample: the code's separator is `/`, not `:`; the string
`"core:torch"` contains no `/`, so parsing fails with `InvalidParts`
instead of producing namespace `"core"` and name `"torch"`. -/
theorem c8_counterexample :
    idFromStr "core:torch".data = .error .invalidParts :=
  rfl

/-- C8 (amended): with the code's separator `/`, the string `"core/torch"`
parses to module `"core"` and name `"torch"` and re-encodes to
`"core/torch"`, while `"core/torch/extra"` and `"coreonly"` both fail to
parse. -/
theorem c8_scenario :
    idFromStr "core/torch".data = .ok ⟨"core".data, "torch".data⟩ ∧
    idToString ⟨"core".data, "torch".data⟩ = "core/torch".data ∧
    idFromStr "core/torch/extra".data = .error .invalidParts ∧
    idFromStr "coreonly".data = .error .invalidParts :=
  ⟨rfl, rfl, rfl, rfl⟩

/-- C9: parsing does not re-validate the charset: `"a!/b"` has exactly one
separator, parts of 1–12 bytes, contains `!` (outside `[a-zA-Z0-9._-]`),
and still parses successfully. -/
theorem c9_charset_unchecked :
    ∃ s : RStr,
      countChar '/' s = 1 ∧
      (∀ p ∈ splitOnChar '/' s, 1 ≤ utf8Len p ∧ utf8Len p ≤ 12) ∧
      (∃ c ∈ s, isIdChar c = false) ∧
      ∃ i, idFromStr s = .ok i :=
  ⟨"a!/b".data, by decide, by decide, ⟨'!', by decide⟩,
    ⟨⟨"a!".data, "b".data⟩, rfl⟩⟩

/-- C10: parsing accepts an empty part: `"/torch"` and `"core/"` both parse
successfully even though the resulting identifiers violate the documented
non-emptiness invariant, and their string forms reproduce the inputs. -/
theorem c10_empty_parts :
    idFromStr "/torch".data = .ok ⟨[], "torch".data⟩ ∧
    validId ⟨[], "torch".data⟩ = false ∧
    idToString ⟨[], "torch".data⟩ = "/torch".data ∧
    idFromStr "core/".data = .ok ⟨"core".data, []⟩ ∧
    validId ⟨"core".data, []⟩ = false ∧
    idToString ⟨"core".data, []⟩ = "core/".data :=
  ⟨rfl, by decide, rfl, rfl, by decide, rfl⟩

end Fe3o4
